import Mathlib

/-!
Verification of the Clinical Trial Eligibility Engine.

The repository ships a React frontend (`EligibilityForm.jsx`) as glue code;
the engine itself (document normalizer, criteria structurer, patient profile
parser, adjudication oracle client, verdict aggregator, report assembler) is
described at design level in the specification.  This file shallowly embeds
both parts: the frontend handlers are translated from the source, and the
engine components are modelled from the spec where the repository does not
contain their code.
-/

namespace ClinicalTrial

/-! ## Core data model (spec §3) -/

inductive Category where
  | Inclusion
  | Exclusion
deriving DecidableEq, Repr

inductive Status where
  | Met
  | Violated
  | Undetermined
deriving DecidableEq, Repr

inductive Confidence where
  | Low
  | Medium
  | High
deriving DecidableEq, Repr

inductive Decision where
  | Eligible
  | Ineligible
  | IndeterminateNeedsReview
deriving DecidableEq, Repr

/-- Modelled from the spec: Criterion record created by the Criteria
Structurer; `id` is a stable sequence number. -/
structure Criterion where
  id : Nat
  category : Category
  text : String
  normalized_text : String
deriving DecidableEq, Repr

/-- Modelled from the spec: open key/value patient fact produced by the
Patient Profile Parser. -/
structure PatientFact where
  key : String
  value : String
  source_span : Option (Nat × Nat)
deriving DecidableEq, Repr

/-- Modelled from the spec: one Verdict per criterion per evaluation run,
produced by the Oracle Client. -/
structure Verdict where
  criterion_id : Nat
  status : Status
  rationale : String
  confidence : Confidence
deriving DecidableEq, Repr

/-- Modelled from the spec: a patient fact that independently disqualifies
the patient; derived by the Aggregator. -/
structure SilentExclusionTrigger where
  trigger_fact : PatientFact
  implied_criterion_id : Option Nat
  rationale : String
deriving DecidableEq, Repr

/-- Modelled from the spec: the assembled eligibility report. -/
structure EligibilityReport where
  overall_decision : Decision
  verdicts : List Verdict
  triggers : List SilentExclusionTrigger
  generated_at : Nat
deriving DecidableEq, Repr

/-- Modelled from the spec: the error taxonomy of §7. -/
inductive EngineError where
  | MalformedDocumentError
  | CriteriaExtractionError (sectionHeader : String)
  | EmptyProfileError
  | OracleUnavailableError
deriving DecidableEq, Repr

/-! ## Character-level text utilities

The engine's text processing is modelled over `List Char` with structural
recursion, so that every definition evaluates by kernel reduction. -/

def isSpaceChar (c : Char) : Bool :=
  c = ' ' || c = '\t' || c = '\r' || c = '\n'

/-- Split a character list on a delimiter character. -/
def splitOnChar (c : Char) : List Char → List (List Char)
  | [] => [[]]
  | x :: xs =>
    let r := splitOnChar c xs
    if x = c then [] :: r
    else
      match r with
      | [] => [[x]]
      | y :: ys => (x :: y) :: ys

def dropLeadingSpaces : List Char → List Char
  | [] => []
  | x :: xs => if isSpaceChar x then dropLeadingSpaces xs else x :: xs

/-- Trim space characters from both ends. -/
def trimChars (cs : List Char) : List Char :=
  dropLeadingSpaces ((dropLeadingSpaces cs.reverse).reverse)

/-- Collapse runs of whitespace into single spaces; the flag records whether
the previous character was whitespace. -/
def squeeze : Bool → List Char → List Char
  | _, [] => []
  | prevSpace, x :: xs =>
    if isSpaceChar x then
      if prevSpace then squeeze true xs else ' ' :: squeeze true xs
    else x :: squeeze false xs

/-- Split at the first colon, returning the parts before and after it. -/
def splitFirstColon : List Char → Option (List Char × List Char)
  | [] => none
  | x :: xs =>
    if x = ':' then some ([], xs)
    else (splitFirstColon xs).map fun p => (x :: p.1, p.2)

/-- Strip an expected prefix, returning the remainder when it matches. -/
def dropPrefixChars : List Char → List Char → Option (List Char)
  | [], rest => some rest
  | _ :: _, [] => none
  | p :: ps, x :: xs => if x = p then dropPrefixChars ps xs else none

/-! ## Frontend form model (src/EligibilityForm.jsx)

The React component's state and its two handlers, `handleSubmit` and
`handleFileChange`, translated from the source.  A fetch and its outcome are
modelled as an explicit `FetchOutcome` argument. -/

/-- A file as seen by the file input: its `name` and MIME `type`. -/
structure File where
  name : String
  type : String
deriving DecidableEq, Repr

/-- The component state: `patientData`, `protocolFile`, `result`, `isLoading`
and `error`, as held in the React `useState` hooks. -/
structure FormState where
  patientData : String
  protocolFile : Option File
  result : Option String
  isLoading : Bool
  error : Option String
deriving DecidableEq, Repr

/-- Outcome of the `fetch` call in `handleSubmit`: either the fetch (or
`response.json()`) throws with a message, or an HTTP response arrives with
its `ok` flag, optional `detail` field and optional `result_markdown`. -/
inductive FetchOutcome where
  | fetchError (msg : String)
  | httpResponse (ok : Bool) (detail : Option String) (resultMarkdown : Option String)
deriving DecidableEq, Repr

def acceptedTypes : List String := ["application/pdf", "text/plain"]

/-- `file.name.toLowerCase().endsWith('.txt')` from the source. -/
def endsWithTxtLower (name : String) : Bool :=
  (".txt".data).isSuffixOf (name.data.map Char.toLower)

/-- `handleFileChange` from the source: a present file failing both the MIME
check and the `.txt` name check sets an error and clears `protocolFile`;
otherwise `protocolFile` is set to the (possibly absent) file and the error
is cleared. -/
def handleFileChange (s : FormState) (file : Option File) : FormState :=
  match file with
  | some f =>
    if !(acceptedTypes.contains f.type) && !(endsWithTxtLower f.name) then
      { s with error := some "Only PDF and TXT files are supported.", protocolFile := none }
    else
      { s with protocolFile := some f, error := none }
  | none => { s with protocolFile := none, error := none }

/-- The falsy-check `!patientData || !protocolFile` guarding `handleSubmit`. -/
def validationFails (s : FormState) : Bool :=
  s.patientData = "" || s.protocolFile.isNone

/-- State after `setIsLoading(true); setError(null); setResult(null)`, just
before the fetch is issued. -/
def inFlight (s : FormState) : FormState :=
  { s with isLoading := true, error := none, result := none }

/-- Effect of the try/catch around the fetch: on success the markdown result
is stored; on a thrown error or a non-ok response the error message is
stored (`data.detail || default`, then `err.message || default`). -/
def settleFetch (s : FormState) : FetchOutcome → FormState
  | .fetchError msg =>
    let m : String :=
      if msg = "" then "An unexpected error occurred during API communication." else msg
    { s with error := some m }
  | .httpResponse ok detail md =>
    if ok then { s with result := md }
    else
      let m : String :=
        match detail with
        | some d =>
          if d = "" then "Analysis failed on the server. Check file type and data format." else d
        | none => "Analysis failed on the server. Check file type and data format."
      { s with error := some m }

/-- `handleSubmit` from the source: validation short-circuits with an error;
otherwise the result/error states are reset, the fetch outcome is settled,
and the `finally` block clears `isLoading`. -/
def handleSubmit (s : FormState) (outcome : FetchOutcome) : FormState :=
  if validationFails s then
    { s with error := some "Please provide both patient data and a trial protocol file." }
  else
    { settleFetch (inFlight s) outcome with isLoading := false }

/-- A fetch outcome the catch block treats as failure. -/
def fetchFailed : FetchOutcome → Bool
  | .fetchError _ => true
  | .httpResponse ok _ _ => !ok

/-! ## Patient Profile Parser (spec §4.3)

Modelled from the spec: the parser's code is not in the repository. -/

/-- Modelled from the spec: one profile line becomes a fact; a line with a
`key: value` delimiter is split at the first colon, any other line is kept
as a free-text fact with key `"note"`. -/
def parseFactLine (line : List Char) : PatientFact :=
  match splitFirstColon line with
  | some p =>
    { key := String.mk (trimChars p.1), value := String.mk (trimChars p.2), source_span := none }
  | none => { key := "note", value := String.mk (trimChars line), source_span := none }

/-- Modelled from the spec: split the profile on line breaks, drop blank
lines, and parse each remaining line into a fact. -/
def profileFacts (s : String) : List PatientFact :=
  (((splitOnChar '\n' s.data).map trimChars).filter (fun l => !l.isEmpty)).map parseFactLine

/-- Modelled from the spec: the Patient Profile Parser fails with
`EmptyProfileError` when the input is blank. -/
def parseProfileE (s : String) : Except EngineError (List PatientFact) :=
  if (trimChars s.data).isEmpty then .error .EmptyProfileError
  else .ok (profileFacts s)

/-! ## Document Normalizer and Criteria Structurer (spec §4.1–§4.2)

Modelled from the spec: their code is not in the repository.  A protocol
that has passed section-header detection is represented as an ordered list
of sections, each carrying its header text, its category, and the
enumerated statement units found beneath it, in document order. -/

/-- Modelled from the spec: whitespace canonicalization of the Normalizer,
applied per statement as the criterion's `normalized_text`. -/
def normalizeText (s : String) : String :=
  String.mk (trimChars (squeeze false s.data))

/-- Modelled from the spec: the minimal token count below which a statement
is treated as noise and dropped. -/
def minTokens : Nat := 3

def tokenCount (s : String) : Nat :=
  (((splitOnChar ' ' (squeeze false s.data))).filter (fun t => !t.isEmpty)).length

/-- Modelled from the spec: statements shorter than a minimal token count
are treated as noise and dropped. -/
def isNoise (st : String) : Bool :=
  tokenCount st < minTokens

/-- One located inclusion/exclusion section of the protocol document. -/
structure ProtocolSection where
  header : String
  category : Category
  statements : List String
deriving DecidableEq, Repr

/-- The non-noise statements of a section, each tagged with the section's
category, in document order. -/
def sectionStatements (sec : ProtocolSection) : List (Category × String) :=
  (sec.statements.filter (fun st => !isNoise st)).map (fun st => (sec.category, st))

/-- All extractable statements of the document, in document order. -/
def extractStatements (sections : List ProtocolSection) : List (Category × String) :=
  sections.flatMap sectionStatements

/-- Modelled from the spec: the Criteria Structurer fails with
`CriteriaExtractionError` naming the first section with zero extractable
statements; otherwise it returns one Criterion per statement, with stable
sequential ids, in original document order. -/
def structureCriteria (sections : List ProtocolSection) : Except EngineError (List Criterion) :=
  match sections.find? (fun sec => (sec.statements.filter (fun st => !isNoise st)).isEmpty) with
  | some sec => .error (.CriteriaExtractionError sec.header)
  | none =>
    .ok ((extractStatements sections).enum.map (fun p =>
      { id := p.1, category := p.2.1, text := p.2.2, normalized_text := normalizeText p.2.2 }))

/-! ## Adjudication Oracle Client (spec §4.4)

Modelled from the spec: the client's code is not in the repository.  The
reasoning oracle is the capability `evaluate(criterion, facts) ->
structured_response`; transport failure after the bounded retries with
exponential backoff is modelled as `none`.  The corrective re-prompt issued
after a malformed response is the second capability. -/

/-- A semi-structured oracle response, as raw text. -/
structure OracleResponse where
  raw : String
deriving DecidableEq, Repr

/-- The typed content the strict parser extracts from a response. -/
structure ParsedVerdict where
  status : Status
  rationale : String
  confidence : Confidence
deriving DecidableEq, Repr

/-- Modelled from the spec: the reasoning oracle capability.  `evaluate` is
the per-criterion call; `evaluateCorrective` is the one retry with the
"your output was malformed, respond in the exact format" prompt.  `none`
means the transport failed (timeout, non-success) after bounded retries. -/
structure Oracle where
  evaluate : Criterion → List PatientFact → Option OracleResponse
  evaluateCorrective : Criterion → List PatientFact → Option OracleResponse

def parseStatusToken (cs : List Char) : Option Status :=
  if cs = "Met".data then some .Met
  else if cs = "Violated".data then some .Violated
  else if cs = "Undetermined".data then some .Undetermined
  else none

def parseConfidenceToken (cs : List Char) : Option Confidence :=
  if cs = "Low".data then some .Low
  else if cs = "Medium".data then some .Medium
  else if cs = "High".data then some .High
  else none

/-- Modelled from the spec: strict parsing against the declared output
contract — three lines `STATUS: …`, `RATIONALE: …`, `CONFIDENCE: …`; a
missing status field, an unrecognized status value, or an empty rationale
fails the parse. -/
def parseResponse (r : OracleResponse) : Option ParsedVerdict :=
  match splitOnChar '\n' r.raw.data with
  | [l1, l2, l3] =>
    match dropPrefixChars "STATUS: ".data l1,
          dropPrefixChars "RATIONALE: ".data l2,
          dropPrefixChars "CONFIDENCE: ".data l3 with
    | some st, some ra, some co =>
      match parseStatusToken st, parseConfidenceToken co with
      | some status, some confidence =>
        if ra.isEmpty then none
        else some { status := status, rationale := String.mk ra, confidence := confidence }
      | _, _ => none
    | _, _, _ => none
  | _ => none

/-- Modelled from the spec: evaluate one criterion.  A transport failure is
`OracleUnavailableError`; an unparseable response is retried once with the
corrective prompt, and a second unparseable response degrades to
`status = Undetermined, confidence = Low, rationale = "oracle response
unparseable"`. -/
def evaluateCriterion (oracle : Oracle) (facts : List PatientFact) (c : Criterion) :
    Except EngineError Verdict :=
  match oracle.evaluate c facts with
  | none => .error .OracleUnavailableError
  | some resp =>
    match parseResponse resp with
    | some pv =>
      .ok { criterion_id := c.id, status := pv.status, rationale := pv.rationale, confidence := pv.confidence }
    | none =>
      match oracle.evaluateCorrective c facts with
      | none => .error .OracleUnavailableError
      | some resp2 =>
        match parseResponse resp2 with
        | some pv =>
          .ok { criterion_id := c.id, status := pv.status, rationale := pv.rationale, confidence := pv.confidence }
        | none =>
          .ok { criterion_id := c.id, status := .Undetermined, rationale := "oracle response unparseable", confidence := .Low }

/-- Modelled from the spec: evaluate every criterion in order; any
criterion-level failure fails the whole run (no partial report). -/
def evaluateAll (oracle : Oracle) (facts : List PatientFact) :
    List Criterion → Except EngineError (List Verdict)
  | [] => .ok []
  | c :: cs =>
    match evaluateCriterion oracle facts c with
    | .error e => .error e
    | .ok v =>
      match evaluateAll oracle facts cs with
      | .error e => .error e
      | .ok vs => .ok (v :: vs)

/-! ## Verdict Aggregator (spec §4.5 and the §3 invariants)

Modelled from the spec: the aggregator's code is not in the repository.
The silent-trigger detection heuristic is explicitly an implementation
choice in the spec, so it is a parameter of the pipeline; each finding it
returns forces ineligibility. -/

/-- Category of the criterion a verdict judges, looked up by its stable id. -/
def categoryOf (criteria : List Criterion) (cid : Nat) : Option Category :=
  (criteria.find? (fun c => c.id = cid)).map (fun c => c.category)

/-- A `Violated` verdict on an Exclusion-category criterion. -/
def isViolatedExclusion (criteria : List Criterion) (v : Verdict) : Bool :=
  decide (v.status = Status.Violated) && decide (categoryOf criteria v.criterion_id = some Category.Exclusion)

/-- An `Undetermined` verdict on an Exclusion-category criterion. -/
def isUndeterminedExclusion (criteria : List Criterion) (v : Verdict) : Bool :=
  decide (v.status = Status.Undetermined) && decide (categoryOf criteria v.criterion_id = some Category.Exclusion)

/-- Low confidence on a disqualifying signal: a verdict that did not find
the criterion `Met`, held with `Low` confidence. -/
def isLowDisqualifying (v : Verdict) : Bool :=
  decide (v.confidence = Confidence.Low) && !(decide (v.status = Status.Met))

/-- Modelled from the spec: decision precedence Ineligible >
IndeterminateNeedsReview > Eligible; a Violated Exclusion verdict or any
silent exclusion trigger forces Ineligible; otherwise an Undetermined
Exclusion verdict or low confidence on a disqualifying signal forces
IndeterminateNeedsReview. -/
def aggregate (criteria : List Criterion) (verdicts : List Verdict)
    (triggers : List SilentExclusionTrigger) : Decision :=
  if verdicts.any (isViolatedExclusion criteria) || !triggers.isEmpty then
    .Ineligible
  else if verdicts.any (isUndeterminedExclusion criteria) || verdicts.any isLowDisqualifying then
    .IndeterminateNeedsReview
  else
    .Eligible

/-- The silent-trigger detection pass, an implementation choice per the
spec, abstracted as a function of the facts, criteria and verdicts. -/
def TriggerDetector : Type :=
  List PatientFact → List Criterion → List Verdict → List SilentExclusionTrigger

/-! ## Report Assembler (spec §4.6, §6)

Modelled from the spec: pure rendering of the already-decided report into
the four fixed sections, with no decision logic of its own. -/

def renderStatus : Status → String
  | .Met => "Met"
  | .Violated => "Violated"
  | .Undetermined => "Undetermined"

def renderConfidence : Confidence → String
  | .Low => "Low"
  | .Medium => "Medium"
  | .High => "High"

def renderDecision : Decision → String
  | .Eligible => "Eligible"
  | .Ineligible => "Ineligible"
  | .IndeterminateNeedsReview => "IndeterminateNeedsReview"

def renderVerdict (v : Verdict) : String :=
  "- Criterion " ++ toString v.criterion_id ++ ": " ++ renderStatus v.status
    ++ " (" ++ renderConfidence v.confidence ++ ") — " ++ v.rationale ++ "\n"

def renderTrigger (t : SilentExclusionTrigger) : String :=
  "- " ++ t.trigger_fact.key ++ ": " ++ t.trigger_fact.value ++ " — " ++ t.rationale ++ "\n"

/-- One criteria section of the report: the verdicts on criteria of the
given category, in report order. -/
def criteriaSection (title : String) (cat : Category) (criteria : List Criterion)
    (verdicts : List Verdict) : String :=
  "## " ++ title ++ "\n"
    ++ String.join ((verdicts.filter (fun v => decide (categoryOf criteria v.criterion_id = some cat))).map renderVerdict)

/-- The Silent Exclusion Triggers section of the report. -/
def triggersSection (triggers : List SilentExclusionTrigger) : String :=
  "## Silent Exclusion Triggers\n" ++ String.join (triggers.map renderTrigger)

/-- The overall decision banner, a verbatim rendering of the already-decided
`overall_decision`. -/
def decisionBanner (d : Decision) : String :=
  "## Overall Decision\n" ++ renderDecision d ++ "\n"

/-- Modelled from the spec: the Report Assembler.  It renders the verdicts
grouped by category, then the Silent Exclusion Triggers section, then the
overall decision banner; it reads only the already-decided fields of the
report (and the criteria list for grouping), never re-deriving a
decision. -/
def assembleReport (criteria : List Criterion) (r : EligibilityReport) : String :=
  criteriaSection "Inclusion Criteria" .Inclusion criteria r.verdicts
    ++ criteriaSection "Exclusion Criteria" .Exclusion criteria r.verdicts
    ++ triggersSection r.triggers
    ++ decisionBanner r.overall_decision

/-! ## The evaluation pipeline (spec §2, §6) -/

/-- Modelled from the spec: one evaluation run.  Parses the profile
(failing on a blank input), structures the criteria, evaluates every
criterion against the facts, runs the silent-trigger pass, and aggregates
into a report.  Any failure fails the whole request with no partial
report. -/
def runEngine (oracle : Oracle) (detect : TriggerDetector)
    (sections : List ProtocolSection) (patientText : String) (now : Nat) :
    Except EngineError EligibilityReport :=
  match parseProfileE patientText with
  | .error e => .error e
  | .ok facts =>
    match structureCriteria sections with
    | .error e => .error e
    | .ok criteria =>
      match evaluateAll oracle facts criteria with
      | .error e => .error e
      | .ok verdicts =>
        let triggers := detect facts criteria verdicts
        .ok { overall_decision := aggregate criteria verdicts triggers, verdicts := verdicts, triggers := triggers, generated_at := now }

/-! ## Concrete instances

A small protocol, patient profile and oracle used to exhibit each property
on closed inputs. -/

def demoCriterionIncl : Criterion :=
  { id := 0, category := .Inclusion, text := "Adults aged 18 to 65", normalized_text := "Adults aged 18 to 65" }

def demoCriterionExcl : Criterion :=
  { id := 1, category := .Exclusion, text := "Age greater than 75", normalized_text := "Age greater than 75" }

def demoCriteria : List Criterion := [demoCriterionIncl, demoCriterionExcl]

def demoSections : List ProtocolSection :=
  [{ header := "Inclusion Criteria", category := .Inclusion, statements := ["Adults aged 18 to 65"] },
   { header := "Exclusion Criteria", category := .Exclusion, statements := ["Age greater than 75"] }]

def demoPatientText : String := "Age: 80\nDiagnosis: Type 2 Diabetes"

def demoFacts : List PatientFact := profileFacts demoPatientText

/-- A response conforming to the output contract. -/
def goodResp : OracleResponse :=
  ⟨"STATUS: Met\nRATIONALE: criterion satisfied by the stated facts\nCONFIDENCE: High"⟩

/-- A free-form response violating the output contract. -/
def badResp : OracleResponse := ⟨"the patient seems fine to me"⟩

/-- An oracle whose transport works and whose responses conform. -/
def demoOracle : Oracle :=
  { evaluate := fun _ _ => some goodResp, evaluateCorrective := fun _ _ => some goodResp }

/-- An oracle whose transport fails after the bounded retries. -/
def downOracle : Oracle :=
  { evaluate := fun _ _ => none, evaluateCorrective := fun _ _ => none }

/-- An oracle that keeps answering outside the output contract. -/
def garbledOracle : Oracle :=
  { evaluate := fun _ _ => some badResp, evaluateCorrective := fun _ _ => some badResp }

/-- A trigger pass that finds nothing. -/
def noTriggers : TriggerDetector := fun _ _ _ => []

def demoVerdicts : List Verdict :=
  [{ criterion_id := 0, status := .Met, rationale := "criterion satisfied by the stated facts", confidence := .High },
   { criterion_id := 1, status := .Met, rationale := "criterion satisfied by the stated facts", confidence := .High }]

def demoViolatedVerdict : Verdict :=
  { criterion_id := 1, status := .Violated, rationale := "age 80 exceeds the limit", confidence := .High }

def demoDegradedVerdicts : List Verdict :=
  [{ criterion_id := 0, status := .Undetermined, rationale := "oracle response unparseable", confidence := .Low }]

def demoReport : EligibilityReport :=
  { overall_decision := .Ineligible, verdicts := demoVerdicts, triggers := [], generated_at := 0 }

def demoReportLater : EligibilityReport :=
  { demoReport with generated_at := 1 }

def emptyFormState : FormState :=
  { patientData := "", protocolFile := none, result := none, isLoading := false, error := none }

def rejectedFile : File := { name := "protocol.docx", type := "application/msword" }

def acceptedFile : File := { name := "protocol.TXT", type := "application/octet-stream" }

def filledFormState : FormState :=
  { patientData := "Age: 80", protocolFile := some acceptedFile, result := some "old report",
    isLoading := false, error := some "old error" }

end ClinicalTrial

namespace ClinicalTrial

/-! ## Helper lemmas -/

lemma evaluateCriterion_ok_id (oracle : Oracle) (facts : List PatientFact) (c : Criterion)
    (v : Verdict) (h : evaluateCriterion oracle facts c = Except.ok v) :
    v.criterion_id = c.id := by
  unfold evaluateCriterion at h
  repeat' split at h
  all_goals simp_all
  all_goals (subst h; rfl)

lemma evaluateCriterion_error_eq (oracle : Oracle) (facts : List PatientFact) (c : Criterion)
    (e : EngineError) (h : evaluateCriterion oracle facts c = Except.error e) :
    e = EngineError.OracleUnavailableError := by
  unfold evaluateCriterion at h
  repeat' split at h
  all_goals simp_all

lemma evaluateAll_ok_ids (oracle : Oracle) (facts : List PatientFact) :
    ∀ (criteria : List Criterion) (verdicts : List Verdict),
      evaluateAll oracle facts criteria = Except.ok verdicts →
      verdicts.map (fun v => v.criterion_id) = criteria.map (fun c => c.id) := by
  intro criteria
  induction criteria with
  | nil =>
    intro verdicts h
    simp [evaluateAll] at h
    subst h
    rfl
  | cons c cs ih =>
    intro verdicts h
    unfold evaluateAll at h
    cases hc : evaluateCriterion oracle facts c with
    | error e => rw [hc] at h; exact absurd h (by simp)
    | ok v =>
      rw [hc] at h
      cases hcs : evaluateAll oracle facts cs with
      | error e => rw [hcs] at h; exact absurd h (by simp)
      | ok ws =>
        rw [hcs] at h
        simp at h
        subst h
        simp [ih ws hcs, evaluateCriterion_ok_id oracle facts c v hc]

lemma evaluateAll_error_of_transport (oracle : Oracle) (facts : List PatientFact) :
    ∀ (criteria : List Criterion) (c : Criterion), c ∈ criteria →
      oracle.evaluate c facts = none →
      evaluateAll oracle facts criteria = Except.error EngineError.OracleUnavailableError := by
  intro criteria
  induction criteria with
  | nil => intro c hc _; exact absurd hc (List.not_mem_nil c)
  | cons c' cs ih =>
    intro c hc ht
    unfold evaluateAll
    cases hc' : evaluateCriterion oracle facts c' with
    | error e =>
      rw [evaluateCriterion_error_eq oracle facts c' e hc']
    | ok v =>
      rcases List.mem_cons.mp hc with rfl | hmem
      · rw [evaluateCriterion] at hc'
        rw [ht] at hc'
        exact absurd hc' (by simp)
      · rw [ih c hmem ht]

lemma runEngine_ok_inv (oracle : Oracle) (detect : TriggerDetector)
    (sections : List ProtocolSection) (patientText : String) (now : Nat)
    (report : EligibilityReport)
    (h : runEngine oracle detect sections patientText now = Except.ok report) :
    ∃ facts criteria,
      parseProfileE patientText = Except.ok facts ∧
      structureCriteria sections = Except.ok criteria ∧
      evaluateAll oracle facts criteria = Except.ok report.verdicts := by
  unfold runEngine at h
  cases hp : parseProfileE patientText with
  | error e => rw [hp] at h; exact absurd h (by simp)
  | ok facts =>
    rw [hp] at h
    simp only at h
    cases hs : structureCriteria sections with
    | error e => rw [hs] at h; exact absurd h (by simp)
    | ok criteria =>
      rw [hs] at h
      simp only at h
      cases he : evaluateAll oracle facts criteria with
      | error e => rw [he] at h; exact absurd h (by simp)
      | ok verdicts =>
        rw [he] at h
        simp only at h
        simp at h
        subst h
        exact ⟨facts, criteria, rfl, rfl, he⟩

lemma any_isViolatedExclusion_iff (criteria : List Criterion) (verdicts : List Verdict) :
    verdicts.any (isViolatedExclusion criteria) = true ↔
      ∃ v ∈ verdicts, v.status = Status.Violated ∧
        categoryOf criteria v.criterion_id = some Category.Exclusion := by
  simp [isViolatedExclusion]

/-! ## The claims -/

/-- C1: `overall_decision = Ineligible` iff some Verdict is `Violated` on an
Exclusion-category criterion or some SilentExclusionTrigger exists; in
particular any single Violated Exclusion verdict, and any trigger, forces
Ineligible regardless of all other verdict statuses. -/
theorem aggregate_ineligible_iff (criteria : List Criterion) (verdicts : List Verdict)
    (triggers : List SilentExclusionTrigger) :
    (aggregate criteria verdicts triggers = Decision.Ineligible ↔
      (∃ v ∈ verdicts, v.status = Status.Violated ∧
        categoryOf criteria v.criterion_id = some Category.Exclusion) ∨ triggers ≠ []) ∧
    (∀ v ∈ verdicts, v.status = Status.Violated →
      categoryOf criteria v.criterion_id = some Category.Exclusion →
      aggregate criteria verdicts triggers = Decision.Ineligible) ∧
    (triggers ≠ [] → aggregate criteria verdicts triggers = Decision.Ineligible) := by
  have hB : (!triggers.isEmpty) = true ↔ triggers ≠ [] := by
    cases triggers <;> simp
  have hiff : aggregate criteria verdicts triggers = Decision.Ineligible ↔
      (∃ v ∈ verdicts, v.status = Status.Violated ∧
        categoryOf criteria v.criterion_id = some Category.Exclusion) ∨ triggers ≠ [] := by
    rw [aggregate]
    split
    next h =>
      constructor
      · intro _
        rcases (Bool.or_eq_true _ _).mp h with h1 | h1
        · exact Or.inl ((any_isViolatedExclusion_iff criteria verdicts).mp h1)
        · exact Or.inr (hB.mp h1)
      · intro _
        rfl
    next h =>
      constructor
      · intro hx
        split at hx <;> exact absurd hx (by simp)
      · intro hx
        exfalso
        apply h
        rcases hx with h1 | h1
        · exact (Bool.or_eq_true _ _).mpr (Or.inl ((any_isViolatedExclusion_iff criteria verdicts).mpr h1))
        · exact (Bool.or_eq_true _ _).mpr (Or.inr (hB.mpr h1))
  refine ⟨hiff, ?_, ?_⟩
  · intro v hv hstat hcat
    exact hiff.mpr (Or.inl ⟨v, hv, hstat, hcat⟩)
  · intro ht
    exact hiff.mpr (Or.inr ht)

theorem aggregate_ineligible_witness :
    aggregate demoCriteria [demoViolatedVerdict] [] = Decision.Ineligible :=
  (aggregate_ineligible_iff demoCriteria [demoViolatedVerdict] []).2.1
    demoViolatedVerdict (by decide) (by decide) (by decide)

/-- C2: a successful evaluation run produces exactly one Verdict per
Criterion — the verdicts list has the length of the criteria list, the
criterion ids appear in criteria order, and distinct criteria yield no
duplicated `criterion_id`. -/
theorem verdicts_complete (oracle : Oracle) (facts : List PatientFact)
    (criteria : List Criterion) (verdicts : List Verdict)
    (h : evaluateAll oracle facts criteria = Except.ok verdicts) :
    verdicts.length = criteria.length ∧
    verdicts.map (fun v => v.criterion_id) = criteria.map (fun c => c.id) ∧
    ((criteria.map (fun c => c.id)).Nodup → (verdicts.map (fun v => v.criterion_id)).Nodup) := by
  have hm := evaluateAll_ok_ids oracle facts criteria verdicts h
  refine ⟨?_, hm, ?_⟩
  · have hl := congrArg List.length hm
    simpa using hl
  · intro hn
    rw [hm]
    exact hn

theorem verdicts_complete_witness :
    demoVerdicts.length = demoCriteria.length ∧
    demoVerdicts.map (fun v => v.criterion_id) = demoCriteria.map (fun c => c.id) ∧
    ((demoCriteria.map (fun c => c.id)).Nodup → (demoVerdicts.map (fun v => v.criterion_id)).Nodup) :=
  verdicts_complete demoOracle demoFacts demoCriteria demoVerdicts rfl

/-- C3: when the transport to the oracle fails (after the bounded retries)
for any criterion, the whole request fails with `OracleUnavailableError` and
no partial report is returned; and a returned report never omits a
criterion's verdict. -/
theorem transport_failure_fails_request (oracle : Oracle) (detect : TriggerDetector)
    (sections : List ProtocolSection) (patientText : String) (now : Nat)
    (facts : List PatientFact) (criteria : List Criterion)
    (hp : parseProfileE patientText = Except.ok facts)
    (hs : structureCriteria sections = Except.ok criteria) :
    (∀ c ∈ criteria, oracle.evaluate c facts = none →
      runEngine oracle detect sections patientText now = Except.error EngineError.OracleUnavailableError) ∧
    (∀ report, runEngine oracle detect sections patientText now = Except.ok report →
      report.verdicts.length = criteria.length) := by
  constructor
  · intro c hc ht
    simp only [runEngine, hp, hs]
    rw [evaluateAll_error_of_transport oracle facts criteria c hc ht]
  · intro report hr
    obtain ⟨facts', criteria', hp', hs', he'⟩ :=
      runEngine_ok_inv oracle detect sections patientText now report hr
    rw [hp] at hp'
    rw [hs] at hs'
    cases hp'
    cases hs'
    have hm := evaluateAll_ok_ids oracle facts criteria report.verdicts he'
    have hl := congrArg List.length hm
    simpa using hl

theorem transport_failure_witness :
    runEngine downOracle noTriggers demoSections demoPatientText 0 =
      Except.error EngineError.OracleUnavailableError :=
  (transport_failure_fails_request downOracle noTriggers demoSections demoPatientText 0
      demoFacts demoCriteria rfl rfl).1 demoCriterionIncl (by decide) rfl

/-- C4: a criterion whose oracle response fails strict parsing is retried
once with the corrective prompt; when the second response is also
unparseable the criterion's Verdict is `Undetermined` with `Low` confidence
and rationale "oracle response unparseable", and the overall decision is at
least `IndeterminateNeedsReview` unless another criterion already forces
`Ineligible`. -/
theorem unparseable_twice_degrades (oracle : Oracle) (facts : List PatientFact)
    (c : Criterion) (r1 r2 : OracleResponse)
    (h1 : oracle.evaluate c facts = some r1) (hp1 : parseResponse r1 = none)
    (h2 : oracle.evaluateCorrective c facts = some r2) (hp2 : parseResponse r2 = none)
    (criteria : List Criterion) (verdicts : List Verdict)
    (triggers : List SilentExclusionTrigger)
    (hmem : ({ criterion_id := c.id, status := .Undetermined, rationale := "oracle response unparseable", confidence := .Low } : Verdict) ∈ verdicts) :
    evaluateCriterion oracle facts c =
      Except.ok { criterion_id := c.id, status := .Undetermined, rationale := "oracle response unparseable", confidence := .Low } ∧
    aggregate criteria verdicts triggers ≠ Decision.Eligible ∧
    (verdicts.any (isViolatedExclusion criteria) = false → triggers = [] →
      aggregate criteria verdicts triggers = Decision.IndeterminateNeedsReview) := by
  have hlow : verdicts.any isLowDisqualifying = true := by
    rw [List.any_eq_true]
    exact ⟨_, hmem, by simp [isLowDisqualifying]⟩
  refine ⟨?_, ?_, ?_⟩
  · unfold evaluateCriterion
    rw [h1]
    simp only
    rw [hp1]
    simp only
    rw [h2]
    simp only
    rw [hp2]
  · unfold aggregate
    split
    · simp
    · rw [if_pos]
      · simp
      · rw [hlow]
        simp
  · intro hnv ht
    unfold aggregate
    rw [if_neg, if_pos]
    · rw [hlow]
      simp
    · rw [hnv, ht]
      simp

theorem unparseable_twice_witness :
    evaluateCriterion garbledOracle demoFacts demoCriterionIncl =
      Except.ok { criterion_id := demoCriterionIncl.id, status := .Undetermined, rationale := "oracle response unparseable", confidence := .Low } ∧
    aggregate demoCriteria demoDegradedVerdicts [] = Decision.IndeterminateNeedsReview :=
  have h := unparseable_twice_degrades garbledOracle demoFacts demoCriterionIncl badResp badResp
    rfl rfl rfl rfl demoCriteria demoDegradedVerdicts [] (by decide)
  ⟨h.1, h.2.2 (by decide) rfl⟩

/-- C5: a protocol whose sections contain N (non-noise) enumerated criterion
statements is structured into exactly N Criterion records, in original
document order, with sequential stable ids; and a run over those criteria
reports its verdicts in that same order. -/
theorem structurer_count_order (sections : List ProtocolSection)
    (hnn : ∀ sec ∈ sections, ∀ st ∈ sec.statements, isNoise st = false)
    (hne : ∀ sec ∈ sections, sec.statements ≠ []) :
    ∃ cs, structureCriteria sections = Except.ok cs ∧
      cs.length = (sections.map (fun sec => sec.statements.length)).sum ∧
      cs.map (fun c => c.text) = sections.flatMap (fun sec => sec.statements) ∧
      cs.map (fun c => c.id) = List.range cs.length ∧
      (∀ oracle facts verdicts, evaluateAll oracle facts cs = Except.ok verdicts →
        verdicts.map (fun v => v.criterion_id) = cs.map (fun c => c.id)) := by
  have hfilter : ∀ sec ∈ sections, sec.statements.filter (fun st => !isNoise st) = sec.statements := by
    intro sec hsec
    apply List.filter_eq_self.mpr
    intro st hst
    simp [hnn sec hsec st hst]
  have hfind : sections.find? (fun sec => (sec.statements.filter (fun st => !isNoise st)).isEmpty) = none := by
    rw [List.find?_eq_none]
    intro sec hsec
    rw [hfilter sec hsec]
    simp only [List.isEmpty_iff]
    exact hne sec hsec
  have hext : extractStatements sections =
      sections.flatMap (fun sec => sec.statements.map (fun st => (sec.category, st))) := by
    unfold extractStatements
    apply List.flatMap_congr
    intro sec hsec
    unfold sectionStatements
    rw [hfilter sec hsec]
  unfold structureCriteria
  rw [hfind]
  refine ⟨_, rfl, ?_, ?_, ?_, ?_⟩
  · simp only [List.length_map, List.enum_length]
    rw [hext, List.length_flatMap]
    simp [Function.comp_def]
  · simp only [List.map_map]
    have h1 : ((fun c => Criterion.text c) ∘ fun p : Nat × (Category × String) =>
        ({ id := p.1, category := p.2.1, text := p.2.2, normalized_text := normalizeText p.2.2 } : Criterion))
        = (Prod.snd ∘ Prod.snd) := rfl
    rw [h1, ← List.map_map, List.enum_map_snd, hext, List.map_flatMap]
    apply List.flatMap_congr
    intro sec _
    simp [List.map_map]
  · simp only [List.map_map, List.length_map, List.enum_length]
    have h1 : ((fun c => Criterion.id c) ∘ fun p : Nat × (Category × String) =>
        ({ id := p.1, category := p.2.1, text := p.2.2, normalized_text := normalizeText p.2.2 } : Criterion))
        = Prod.fst := rfl
    rw [h1, List.enum_map_fst]
  · intro oracle facts verdicts h
    exact evaluateAll_ok_ids oracle facts _ verdicts h

theorem structurer_count_order_witness :
    ∃ cs, structureCriteria demoSections = Except.ok cs ∧
      cs.length = (demoSections.map (fun sec => sec.statements.length)).sum ∧
      cs.map (fun c => c.text) = demoSections.flatMap (fun sec => sec.statements) ∧
      cs.map (fun c => c.id) = List.range cs.length ∧
      (∀ oracle facts verdicts, evaluateAll oracle facts cs = Except.ok verdicts →
        verdicts.map (fun v => v.criterion_id) = cs.map (fun c => c.id)) :=
  structurer_count_order demoSections (by decide) (by decide)

/-- C6: the Report Assembler is a pure, deterministic, idempotent rendering
of the already-decided report — re-running it on an unchanged report yields
the identical string, reports agreeing on verdicts, triggers and decision
render identically (the timestamp plays no role), and the decision banner
is a verbatim rendering of the input's `overall_decision`. -/
theorem assembleReport_pure (criteria : List Criterion) (r r' : EligibilityReport)
    (hv : r'.verdicts = r.verdicts) (ht : r'.triggers = r.triggers)
    (hd : r'.overall_decision = r.overall_decision) :
    assembleReport criteria r = assembleReport criteria r ∧
    assembleReport criteria r' = assembleReport criteria r ∧
    (∃ body, assembleReport criteria r = body ++ decisionBanner r.overall_decision) := by
  refine ⟨rfl, ?_, ?_⟩
  · simp [assembleReport, hv, ht, hd]
  · exact ⟨_, rfl⟩

theorem assembleReport_pure_witness :
    assembleReport demoCriteria demoReport = assembleReport demoCriteria demoReport ∧
    assembleReport demoCriteria demoReportLater = assembleReport demoCriteria demoReport ∧
    (∃ body, assembleReport demoCriteria demoReport = body ++ decisionBanner demoReport.overall_decision) :=
  assembleReport_pure demoCriteria demoReport demoReportLater rfl rfl rfl

/-- C7: a blank patient profile fails the run with `EmptyProfileError` and
no report is produced; in the frontend, an empty `patientData` makes
`handleSubmit` set the validation error and return before any request. -/
theorem blank_profile_fails (oracle : Oracle) (detect : TriggerDetector)
    (sections : List ProtocolSection) (patientText : String) (now : Nat)
    (s : FormState) (outcome : FetchOutcome)
    (hb : (trimChars patientText.data).isEmpty = true)
    (hp : s.patientData = "") :
    runEngine oracle detect sections patientText now = Except.error EngineError.EmptyProfileError ∧
    (∀ report, runEngine oracle detect sections patientText now ≠ Except.ok report) ∧
    handleSubmit s outcome =
      { s with error := some "Please provide both patient data and a trial protocol file." } := by
  have h1 : runEngine oracle detect sections patientText now = Except.error EngineError.EmptyProfileError := by
    unfold runEngine parseProfileE
    rw [hb]
    rfl
  refine ⟨h1, ?_, ?_⟩
  · intro report hr
    rw [h1] at hr
    exact absurd hr (by simp)
  · simp [handleSubmit, validationFails, hp]

theorem blank_profile_fails_witness :
    runEngine demoOracle noTriggers demoSections "" 0 = Except.error EngineError.EmptyProfileError ∧
    (∀ report, runEngine demoOracle noTriggers demoSections "" 0 ≠ Except.ok report) ∧
    handleSubmit emptyFormState (FetchOutcome.fetchError "network down") =
      { emptyFormState with error := some "Please provide both patient data and a trial protocol file." } :=
  blank_profile_fails demoOracle noTriggers demoSections "" 0 emptyFormState
    (FetchOutcome.fetchError "network down") rfl rfl

/-- C8: `handleFileChange` accepts a file whose MIME type is
application/pdf or text/plain or whose name ends case-insensitively in
.txt, storing it and clearing the error; any other file is rejected with a
non-null error message and `protocolFile` set to null. -/
theorem handleFileChange_spec (s : FormState) (f : File) :
    ((f.type = "application/pdf" ∨ f.type = "text/plain" ∨ endsWithTxtLower f.name = true) →
      (handleFileChange s (some f)).protocolFile = some f ∧
      (handleFileChange s (some f)).error = none) ∧
    (f.type ≠ "application/pdf" → f.type ≠ "text/plain" → endsWithTxtLower f.name = false →
      (handleFileChange s (some f)).protocolFile = none ∧
      (handleFileChange s (some f)).error = some "Only PDF and TXT files are supported.") := by
  constructor
  · rintro (h | h | h) <;> simp [handleFileChange, acceptedTypes, h]
  · intro h1 h2 h3
    simp [handleFileChange, acceptedTypes, h1, h2, h3]

theorem handleFileChange_spec_witness :
    (handleFileChange emptyFormState (some acceptedFile)).protocolFile = some acceptedFile ∧
    (handleFileChange emptyFormState (some acceptedFile)).error = none ∧
    (handleFileChange emptyFormState (some rejectedFile)).protocolFile = none ∧
    (handleFileChange emptyFormState (some rejectedFile)).error = some "Only PDF and TXT files are supported." :=
  have ha := (handleFileChange_spec emptyFormState acceptedFile).1 (Or.inr (Or.inr (by decide)))
  have hr := (handleFileChange_spec emptyFormState rejectedFile).2 (by decide) (by decide) (by decide)
  ⟨ha.1, ha.2, hr.1, hr.2⟩

/-- C9: a validated submission resets the previous result and error before
the request; when the fetch throws or the response is not ok, the result
stays null while the error becomes a non-null message — a report and an
error from the same submission are never both displayed. -/
theorem handleSubmit_failure_spec (s : FormState) (outcome : FetchOutcome)
    (hv : validationFails s = false) (hf : fetchFailed outcome = true) :
    (inFlight s).result = none ∧ (inFlight s).error = none ∧
    (handleSubmit s outcome).result = none ∧ (handleSubmit s outcome).error.isSome = true := by
  refine ⟨rfl, rfl, ?_, ?_⟩ <;>
    cases outcome with
    | fetchError msg => simp [handleSubmit, hv, settleFetch, inFlight]
    | httpResponse ok detail md =>
      cases ok with
      | true => simp [fetchFailed] at hf
      | false => simp [handleSubmit, hv, settleFetch, inFlight]

theorem handleSubmit_failure_witness :
    (inFlight filledFormState).result = none ∧ (inFlight filledFormState).error = none ∧
    (handleSubmit filledFormState (FetchOutcome.httpResponse false (some "Unsupported file type") none)).result = none ∧
    (handleSubmit filledFormState (FetchOutcome.httpResponse false (some "Unsupported file type") none)).error.isSome = true :=
  handleSubmit_failure_spec filledFormState
    (FetchOutcome.httpResponse false (some "Unsupported file type") none) (by decide) rfl

/-- C10: every completed `handleSubmit` invocation — early validation
return, success, or failure — leaves `isLoading` false; `isLoading` is true
exactly in the in-flight state between reset and settlement. -/
theorem handleSubmit_isLoading_spec (s : FormState) (outcome : FetchOutcome)
    (h : s.isLoading = false) :
    (handleSubmit s outcome).isLoading = false ∧
    (validationFails s = false → (inFlight s).isLoading = true) := by
  constructor
  · by_cases hv : validationFails s = true
    · simp [handleSubmit, hv, h]
    · simp at hv
      cases outcome <;> simp [handleSubmit, hv, settleFetch, inFlight]
  · intro _
    rfl

theorem handleSubmit_isLoading_witness :
    (handleSubmit filledFormState (FetchOutcome.httpResponse true none (some "# Eligibility Report"))).isLoading = false ∧
    (validationFails filledFormState = false → (inFlight filledFormState).isLoading = true) :=
  handleSubmit_isLoading_spec filledFormState
    (FetchOutcome.httpResponse true none (some "# Eligibility Report")) rfl

end ClinicalTrial
